import Mathlib

/-!
Shallow embedding of `src/code.py` (class `FashionAnalyzer`): a pandas
pipeline that loads a CSV, cleans it (`fillna(0).drop_duplicates()`),
prints descriptive statistics plus an optional per-category popularity
median ranking, and renders four independently guarded chart panels.

Modelling conventions:
* a DataFrame cell is `Cell` (missing marker `na`, numeric `num : Rat`,
  or text `str : String`); a row is a `List Cell`; a `DataFrame` is a
  column-name list plus a row list;
* the file system is a function from path to `ReadResult`, covering the
  three outcomes of `pd.read_csv` observed by the code: parsed frame,
  `FileNotFoundError`, or any other read/parse exception with a message;
* Python exceptions are `Except String`; log lines and side effects are
  an `Event` trace;
* `logging.info/error/warning` calls, prints and chart draws become
  structured events, so ordering and short-circuiting are visible.
-/

/-- One DataFrame cell: missing marker (`NaN`), a numeric value, or text. -/
inductive Cell where
  | na : Cell
  | num : Rat → Cell
  | str : String → Cell
deriving DecidableEq

/-- A DataFrame row, as the list of its cells in column order. -/
abbrev Row := List Cell

/-- The in-memory table produced by `pd.read_csv`: named columns and rows. -/
structure DataFrame where
  cols : List String
  rows : List Row
deriving DecidableEq

/-- `fillna(0)` on one cell: a missing cell becomes numeric zero, any
other cell is unchanged. -/
def Cell.fillZero : Cell → Cell
  | .na => .num 0
  | c => c

/-- `fillna(0)` on one row: every missing cell becomes numeric zero. -/
def fillnaRow (r : Row) : Row := r.map Cell.fillZero

/-- `df.fillna(0)`: zero-fill every cell of every row. -/
def DataFrame.fillna0 (df : DataFrame) : DataFrame :=
  ⟨df.cols, df.rows.map fillnaRow⟩

/-- Helper for `drop_duplicates`: scan the list keeping an element only
when it has not been seen before (`seen` holds the values kept so far). -/
def dedupAux {α : Type} [DecidableEq α] (seen : List α) : List α → List α
  | [] => []
  | a :: l => if a ∈ seen then dedupAux seen l else a :: dedupAux (a :: seen) l

/-- `drop_duplicates()` (pandas default `keep='first'`): drop every
element equal to an earlier one. -/
def drop_duplicates {α : Type} [DecidableEq α] (l : List α) : List α :=
  dedupAux [] l

/-- `df.drop_duplicates()`: keep the first occurrence of each row. -/
def DataFrame.dropDuplicates (df : DataFrame) : DataFrame :=
  ⟨df.cols, drop_duplicates df.rows⟩

/-- The Clean step of `load_data`: `self.df.fillna(0).drop_duplicates()`. -/
def cleanFrame (df : DataFrame) : DataFrame :=
  df.fillna0.dropDuplicates

/-- The spec's description of deduplication, written from its words
("drop rows that are exact duplicates of an earlier row, first occurrence
wins, original relative order preserved among survivors"): keep the head,
erase its later duplicates, recurse on the rest.  Used only to compare
the code's `drop_duplicates` against the spec. -/
def firstOccurrenceDedup {α : Type} [DecidableEq α] : List α → List α
  | [] => []
  | a :: l => a :: firstOccurrenceDedup (l.filter (fun x => decide (x ≠ a)))
termination_by l => l.length
decreasing_by
  simpa using Nat.lt_succ_of_le (List.length_filter_le _ _)

/-- Insert into a sorted list (kernel-reducible insertion sort step). -/
def insertSorted {α : Type} (le : α → α → Bool) (a : α) : List α → List α
  | [] => [a]
  | b :: l => if le a b then a :: b :: l else b :: insertSorted le a l

/-- Insertion sort by a boolean relation; models pandas `sort_values`
and the sorting inside `median`/`value_counts` (which order of equal
keys pandas produces is unspecified, and no claim depends on it). -/
def sortBy {α : Type} (le : α → α → Bool) : List α → List α
  | [] => []
  | a :: l => insertSorted le a (sortBy le l)

/-- Sequential effectful map for `Except` (explicit so that proofs can
unfold it): evaluate left to right, stopping at the first error, exactly
as a Python loop raising an exception would. -/
def exceptMapM {α β : Type} (f : α → Except String β) : List α → Except String (List β)
  | [] => .ok []
  | x :: xs =>
    match f x with
    | .error e => .error e
    | .ok y =>
      match exceptMapM f xs with
      | .error e => .error e
      | .ok ys => .ok (y :: ys)

/-- Read a numeric value out of a cell; any non-numeric cell raises the
`TypeError` pandas produces when aggregating non-numeric data. -/
def cellToRat : Cell → Except String Rat
  | .num v => .ok v
  | _ => .error "TypeError: could not convert value to numeric"

/-- Column selection `df[name]`: `none` models the `KeyError` raised
when the column is absent; otherwise the cell of each row at the
column's index (rows are rectangular in pandas, `na` pads a short row). -/
def column (df : DataFrame) (name : String) : Option (List Cell) :=
  (df.cols.findIdx? (fun c => c == name)).map
    (fun i => df.rows.map (fun r => r.getD i Cell.na))

/-- The cells of the `valCol` entries of the rows whose `keyCol` entry
equals `k` — one pandas group. -/
def groupCells (keys vals : List Cell) (k : Cell) : List Cell :=
  ((keys.zip vals).filter (fun p => decide (p.1 = k))).map (fun p => p.2)

/-- Arithmetic mean (pandas `mean`); groups are never empty, the `0`
for the empty list is never reached from the code paths modelled. -/
def listMean (xs : List Rat) : Rat :=
  if xs.length = 0 then 0 else xs.sum / (xs.length : Rat)

/-- pandas `median`: sort ascending, take the middle element (odd
length) or the mean of the two middle elements (even length). -/
def listMedian (xs : List Rat) : Rat :=
  let s := sortBy (fun a b => decide (a ≤ b)) xs
  if xs.length % 2 = 1 then s.getD (xs.length / 2) 0
  else (s.getD (xs.length / 2 - 1) 0 + s.getD (xs.length / 2) 0) / 2

/-- `df.groupby(keyCol)[valCol].agg(...)`: group the `valCol` values by
the `keyCol` value of their row and aggregate each group.  Raises
`KeyError` when either column is absent and `TypeError` when a grouped
value is not numeric.  Groups appear in first-occurrence order of their
key (the ranked outputs are re-sorted afterwards; no claim depends on
the pre-sort order of groups). -/
def groupAgg (df : DataFrame) (keyCol valCol : String) (agg : List Rat → Rat) :
    Except String (List (Cell × Rat)) :=
  match column df keyCol with
  | none => .error ("KeyError: " ++ keyCol)
  | some keys =>
    match column df valCol with
    | none => .error ("KeyError: " ++ valCol)
    | some vals =>
      exceptMapM
        (fun k =>
          match exceptMapM cellToRat (groupCells keys vals k) with
          | .error e => .error e
          | .ok vs => .ok (k, agg vs))
        (drop_duplicates keys)

/-- `self.df.groupby('Category')['Popularity_Score'].median()
.sort_values(ascending=False)`: per-category medians ranked descending. -/
def popularity_by_category (df : DataFrame) : Except String (List (Cell × Rat)) :=
  match groupAgg df "Category" "Popularity_Score" listMedian with
  | .error e => .error e
  | .ok r => .ok (sortBy (fun a b => decide (b.2 ≤ a.2)) r)

/-- What `print_text_stats` prints: the `describe()` table (its numeric
content is not claimed by the spec, so it is an opaque marker here) and,
when present, the ranked per-category popularity medians. -/
inductive ReportItem where
  | describeBlock : ReportItem
  | popularityRanking : List (Cell × Rat) → ReportItem
deriving DecidableEq

/-- `print_text_stats`: print `describe()`, then, iff a column named
`Popularity_Score` exists, compute and print the ranked per-category
medians.  The `Category` column is not checked before `groupby`, so its
absence raises; a raised exception is `Except.error` (the method has no
handler).  Reading `self.df` while it is `None` raises as in Python. -/
def print_text_stats : Option DataFrame → Except String (List ReportItem)
  | none => .error "AttributeError: NoneType has no attribute describe"
  | some df =>
    if "Popularity_Score" ∈ df.cols then
      match popularity_by_category df with
      | .error e => .error e
      | .ok r => .ok [.describeBlock, .popularityRanking r]
    else .ok [.describeBlock]

/-- The fate of one chart panel: drawn with its data, or left blank
after its guard caught an exception (whose message is logged). -/
inductive PanelResult (α : Type) where
  | drawn : α → PanelResult α
  | blank : String → PanelResult α
deriving DecidableEq

/-- Panel A data: `value_counts` of `Color` — each distinct color with
its row count, ordered by descending frequency. -/
def colorChart (odf : Option DataFrame) : Except String (List (Cell × Nat)) :=
  match odf with
  | none => .error "AttributeError: NoneType"
  | some df =>
    match column df "Color" with
    | none => .error "KeyError: Color"
    | some vs =>
      .ok (sortBy (fun a b => decide (b.2 ≤ a.2))
        ((drop_duplicates vs).map (fun k => (k, vs.count k))))

/-- Panel B data: `groupby('Brand')['Price(USD)'].mean().sort_values()`
— mean price per brand, ascending. -/
def priceChart (odf : Option DataFrame) : Except String (List (Cell × Rat)) :=
  match odf with
  | none => .error "AttributeError: NoneType"
  | some df =>
    match groupAgg df "Brand" "Price(USD)" listMean with
    | .error e => .error e
    | .ok r => .ok (sortBy (fun a b => decide (a.2 ≤ b.2)) r)

/-- Panel C data: the `Popularity_Score` distribution per `Style` (the
boxplot draws min/quartiles/max of each group's values). -/
def styleChart (odf : Option DataFrame) : Except String (List (Cell × List Rat)) :=
  match odf with
  | none => .error "AttributeError: NoneType"
  | some df =>
    match column df "Style" with
    | none => .error "KeyError: Style"
    | some keys =>
      match column df "Popularity_Score" with
      | none => .error "KeyError: Popularity_Score"
      | some vals =>
        exceptMapM
          (fun k =>
            match exceptMapM cellToRat (groupCells keys vals k) with
            | .error e => .error e
            | .ok vs => .ok (k, vs))
          (drop_duplicates keys)

/-- Panel D data: `sns.lineplot` aggregates `Customer_Rating` by its
mean per `Season` value, seasons in first-appearance order. -/
def seasonChart (odf : Option DataFrame) : Except String (List (Cell × Rat)) :=
  match odf with
  | none => .error "AttributeError: NoneType"
  | some df => groupAgg df "Season" "Customer_Rating" listMean

/-- Observable events of one run, in order: console log lines
(`logging.info/error/warning`), prints, file-read attempts, the chart
window, and an exception escaping `run` uncaught. -/
inductive Event where
  | readAttempt : String → Event
  | infoLoadedCleaned : Event
  | errorFileNotFound : String → Event
  | errorLoadFailed : String → Event
  | statsPrinted : List ReportItem → Event
  | warnChart : Nat → String → Event
  | chartsShown : Event
  | infoAnalysisComplete : Event
  | errorAnalysisAborted : Event
  | uncaughtException : String → Event
deriving DecidableEq

/-- Is this event the `pd.read_csv` file-read attempt? -/
def Event.isReadAttempt : Event → Bool
  | .readAttempt _ => true
  | _ => false

/-- The four panels of the composed figure plus whether `plt.show()`
presented it (the code always reaches `plt.show()`). -/
structure ChartsOutput where
  colorPanel : PanelResult (List (Cell × Nat))
  pricePanel : PanelResult (List (Cell × Rat))
  stylePanel : PanelResult (List (Cell × List Rat))
  seasonPanel : PanelResult (List (Cell × Rat))
  shown : Bool
deriving DecidableEq

/-- One guarded panel: the `try`/`except` around a chart draw.  An
exception becomes a blank panel plus a `logging.warning` event tagged
with the panel number. -/
def guardPanel {α : Type} (idx : Nat) : Except String α → PanelResult α × List Event
  | .ok d => (.drawn d, [])
  | .error e => (.blank e, [.warnChart idx e])

/-- `plot_all_charts`: draw the four panels sequentially, each inside
its own guard, then `plt.show()` the composed figure.  Returns the
figure contents and the warning/show events in program order. -/
def plot_all_charts (odf : Option DataFrame) : ChartsOutput × List Event :=
  let (p1, w1) := guardPanel 1 (colorChart odf)
  let (p2, w2) := guardPanel 2 (priceChart odf)
  let (p3, w3) := guardPanel 3 (styleChart odf)
  let (p4, w4) := guardPanel 4 (seasonChart odf)
  (⟨p1, p2, p3, p4, true⟩, w1 ++ w2 ++ w3 ++ w4 ++ [.chartsShown])

/-- What `pd.read_csv` can do for a given path: return a parsed frame,
raise `FileNotFoundError`, or raise some other read/parse exception. -/
inductive ReadResult where
  | parsed : DataFrame → ReadResult
  | notFound : ReadResult
  | readFailed : String → ReadResult

/-- The external file system seen through `pd.read_csv`. -/
def FileSystem := String → ReadResult

/-- The class state: the constructor argument `filename` and the `df`
attribute (`None` until a load succeeds). -/
structure FashionAnalyzer where
  filename : String
  df : Option DataFrame
deriving DecidableEq

/-- `__init__`: store the filename, set `self.df = None`. -/
def FashionAnalyzer.init (filename : String) : FashionAnalyzer :=
  ⟨filename, none⟩

/-- `load_data`: read the CSV, clean it (`fillna(0).drop_duplicates()`)
and store it in `self.df`, returning `True`; on `FileNotFoundError` log
"file not found" and return `False`; on any other exception log its
message and return `False`.  A failed read leaves `self.df` untouched. -/
def FashionAnalyzer.load_data (a : FashionAnalyzer) (fs : FileSystem) :
    FashionAnalyzer × Bool × List Event :=
  match fs a.filename with
  | .parsed df =>
      ({ a with df := some (cleanFrame df) }, true,
        [.readAttempt a.filename, .infoLoadedCleaned])
  | .notFound =>
      (a, false, [.readAttempt a.filename, .errorFileNotFound a.filename])
  | .readFailed e =>
      (a, false, [.readAttempt a.filename, .errorLoadFailed e])

/-- `run`: if `load_data` succeeds, print statistics, draw the charts
and log completion, in that order; otherwise log that the analysis
cannot proceed.  `print_text_stats` is called with no handler, so an
exception it raises escapes `run` and nothing after it executes. -/
def FashionAnalyzer.run (a : FashionAnalyzer) (fs : FileSystem) :
    FashionAnalyzer × List Event :=
  let (a1, ok, evLoad) := a.load_data fs
  if ok then
    match print_text_stats a1.df with
    | .error e => (a1, evLoad ++ [.uncaughtException e])
    | .ok items =>
      let (_, evCharts) := plot_all_charts a1.df
      (a1, evLoad ++ Event.statsPrinted items :: evCharts ++ [.infoAnalysisComplete])
  else
    (a1, evLoad ++ [.errorAnalysisAborted])

deriving instance DecidableEq for Except

section Lemmas

variable {α β : Type}

theorem mem_dedupAux [DecidableEq α] (seen : List α) (l : List α) (a : α) :
    a ∈ dedupAux seen l ↔ a ∈ l ∧ a ∉ seen := by
  induction l generalizing seen with
  | nil => simp [dedupAux]
  | cons b l ih =>
    by_cases hb : b ∈ seen
    · simp only [dedupAux, if_pos hb, ih, List.mem_cons]
      constructor
      · rintro ⟨h1, h2⟩; exact ⟨Or.inr h1, h2⟩
      · rintro ⟨h1 | h1, h2⟩
        · exact absurd (h1 ▸ hb) h2
        · exact ⟨h1, h2⟩
    · simp only [dedupAux, if_neg hb, List.mem_cons, ih]
      constructor
      · rintro (rfl | ⟨h1, h2⟩)
        · exact ⟨Or.inl rfl, hb⟩
        · simp only [List.mem_cons, not_or] at h2
          exact ⟨Or.inr h1, h2.2⟩
      · rintro ⟨rfl | h1, h2⟩
        · exact Or.inl rfl
        · by_cases hab : a = b
          · exact Or.inl hab
          · exact Or.inr ⟨h1, by simp [hab, h2]⟩

theorem dedupAux_sublist [DecidableEq α] (seen : List α) (l : List α) :
    (dedupAux seen l).Sublist l := by
  induction l generalizing seen with
  | nil => simp [dedupAux]
  | cons b l ih =>
    by_cases hb : b ∈ seen
    · simp only [dedupAux, if_pos hb]
      exact (ih seen).trans (List.sublist_cons_self b l)
    · simp only [dedupAux, if_neg hb]
      exact (ih (b :: seen)).cons₂ b

theorem nodup_dedupAux [DecidableEq α] (seen : List α) (l : List α) :
    (dedupAux seen l).Nodup := by
  induction l generalizing seen with
  | nil => simp [dedupAux]
  | cons b l ih =>
    by_cases hb : b ∈ seen
    · simpa only [dedupAux, if_pos hb] using ih seen
    · simp only [dedupAux, if_neg hb, List.nodup_cons]
      refine ⟨fun hmem => ?_, ih (b :: seen)⟩
      exact ((mem_dedupAux _ _ _).mp hmem).2 (List.mem_cons_self b seen)

theorem dedupAux_eq_self [DecidableEq α] (seen : List α) (l : List α)
    (hl : l.Nodup) (hd : ∀ a ∈ l, a ∉ seen) : dedupAux seen l = l := by
  induction l generalizing seen with
  | nil => simp [dedupAux]
  | cons b l ih =>
    have hb : b ∉ seen := hd b (List.mem_cons_self b l)
    simp only [dedupAux, if_neg hb]
    have hl' := (List.nodup_cons.mp hl)
    refine congrArg (b :: ·) (ih (b :: seen) hl'.2 ?_)
    intro a ha
    simp only [List.mem_cons, not_or]
    exact ⟨fun h => hl'.1 (h ▸ ha), hd a (List.mem_cons_of_mem b ha)⟩

theorem firstOccurrenceDedup_cons [DecidableEq α] (a : α) (l : List α) :
    firstOccurrenceDedup (a :: l) =
      a :: firstOccurrenceDedup (l.filter (fun x => decide (x ≠ a))) := by
  rw [firstOccurrenceDedup]

theorem dedupAux_eq_firstOccurrenceDedup [DecidableEq α] (seen : List α) (l : List α) :
    dedupAux seen l = firstOccurrenceDedup (l.filter (fun x => decide (x ∉ seen))) := by
  induction l generalizing seen with
  | nil => simp [dedupAux, firstOccurrenceDedup]
  | cons b l ih =>
    by_cases hb : b ∈ seen
    · have h1 : (b :: l).filter (fun x => decide (x ∉ seen)) =
          l.filter (fun x => decide (x ∉ seen)) := by
        simp [List.filter_cons, hb]
      rw [h1, ← ih seen]
      simp only [dedupAux, if_pos hb]
    · have h1 : (b :: l).filter (fun x => decide (x ∉ seen)) =
        b :: l.filter (fun x => decide (x ∉ seen)) := by
        simp [List.filter_cons, hb]
      rw [h1, firstOccurrenceDedup_cons, List.filter_filter]
      simp only [dedupAux, if_neg hb]
      rw [ih (b :: seen)]
      refine congrArg (b :: ·) (congrArg firstOccurrenceDedup ?_)
      refine List.filter_congr (fun x _ => ?_)
      by_cases hxb : x = b
      · simp [hxb]
      · by_cases hxs : x ∈ seen <;> simp [hxb, hxs]

theorem drop_duplicates_eq_firstOccurrenceDedup [DecidableEq α] (l : List α) :
    drop_duplicates l = firstOccurrenceDedup l := by
  rw [drop_duplicates, dedupAux_eq_firstOccurrenceDedup]
  refine congrArg firstOccurrenceDedup ?_
  simp

theorem mem_drop_duplicates [DecidableEq α] (l : List α) (a : α) :
    a ∈ drop_duplicates l ↔ a ∈ l := by
  rw [drop_duplicates, mem_dedupAux]
  simp

theorem nodup_drop_duplicates [DecidableEq α] (l : List α) :
    (drop_duplicates l).Nodup := nodup_dedupAux [] l

theorem drop_duplicates_sublist [DecidableEq α] (l : List α) :
    (drop_duplicates l).Sublist l := dedupAux_sublist [] l

theorem drop_duplicates_eq_self [DecidableEq α] (l : List α) (hl : l.Nodup) :
    drop_duplicates l = l :=
  dedupAux_eq_self [] l hl (by simp)

end Lemmas

section MoreLemmas

variable {α β : Type}

theorem fillZero_ne_na (c : Cell) : Cell.fillZero c ≠ Cell.na := by
  cases c <;> simp [Cell.fillZero]

theorem fillZero_idem (c : Cell) : Cell.fillZero (Cell.fillZero c) = Cell.fillZero c := by
  cases c <;> simp [Cell.fillZero]

theorem fillnaRow_idem (r : Row) : fillnaRow (fillnaRow r) = fillnaRow r := by
  simp [fillnaRow, List.map_map, Function.comp_def, fillZero_idem]

theorem mem_fillnaRow_ne_na (r : Row) (c : Cell) (hc : c ∈ fillnaRow r) :
    c ≠ Cell.na := by
  obtain ⟨c0, _, rfl⟩ := List.mem_map.mp hc
  exact fillZero_ne_na c0

theorem fillnaRow_getElem_na (r : Row) (i : Nat) (h : r[i]? = some Cell.na) :
    (fillnaRow r)[i]? = some (Cell.num 0) := by
  rw [fillnaRow, List.getElem?_map, h]
  rfl

theorem cleanFrame_cols (df : DataFrame) : (cleanFrame df).cols = df.cols := rfl

theorem cleanFrame_rows (df : DataFrame) :
    (cleanFrame df).rows = drop_duplicates (df.rows.map fillnaRow) := rfl

theorem cleanFrame_rows_filled (df : DataFrame) (r : Row)
    (hr : r ∈ (cleanFrame df).rows) : ∃ r0 ∈ df.rows, r = fillnaRow r0 := by
  rw [cleanFrame_rows, mem_drop_duplicates] at hr
  obtain ⟨r0, h0, rfl⟩ := List.mem_map.mp hr
  exact ⟨r0, h0, rfl⟩

theorem cleanFrame_idem (df : DataFrame) : cleanFrame (cleanFrame df) = cleanFrame df := by
  have hmap : (cleanFrame df).rows.map fillnaRow = (cleanFrame df).rows := by
    refine List.map_congr_left (fun r hr => ?_) |>.trans (List.map_id _)
    obtain ⟨r0, _, rfl⟩ := cleanFrame_rows_filled df r hr
    exact fillnaRow_idem r0
  have hnodup : (cleanFrame df).rows.Nodup := by
    rw [cleanFrame_rows]; exact nodup_drop_duplicates _
  show DataFrame.mk (cleanFrame df).cols
      (drop_duplicates ((cleanFrame df).rows.map fillnaRow)) = cleanFrame df
  rw [hmap, drop_duplicates_eq_self _ hnodup]

theorem mem_insertSorted (le : α → α → Bool) (a x : α) (l : List α) :
    x ∈ insertSorted le a l ↔ x = a ∨ x ∈ l := by
  induction l with
  | nil => simp [insertSorted]
  | cons b l ih =>
    by_cases h : le a b
    · simp [insertSorted, h]
    · simp only [insertSorted, if_neg h, List.mem_cons, ih]
      tauto

theorem insertSorted_perm (le : α → α → Bool) (a : α) (l : List α) :
    (insertSorted le a l).Perm (a :: l) := by
  induction l with
  | nil => simp [insertSorted]
  | cons b l ih =>
    by_cases h : le a b
    · simp [insertSorted, h]
    · simp only [insertSorted, if_neg h]
      exact (List.Perm.cons b ih).trans (List.Perm.swap a b l)

theorem sortBy_perm (le : α → α → Bool) (l : List α) : (sortBy le l).Perm l := by
  induction l with
  | nil => simp [sortBy]
  | cons a l ih =>
    exact (insertSorted_perm le a (sortBy le l)).trans (List.Perm.cons a ih)

theorem mem_sortBy (le : α → α → Bool) (l : List α) (x : α) :
    x ∈ sortBy le l ↔ x ∈ l := (sortBy_perm le l).mem_iff

theorem pairwise_insertSorted (le : α → α → Bool)
    (htot : ∀ a b, le a b || le b a)
    (htrans : ∀ a b c, le a b = true → le b c = true → le a c = true)
    (a : α) (l : List α)
    (hl : l.Pairwise (fun x y => le x y = true)) :
    (insertSorted le a l).Pairwise (fun x y => le x y = true) := by
  induction l with
  | nil => simp [insertSorted]
  | cons b l ih =>
    rcases List.pairwise_cons.mp hl with ⟨hb, hl'⟩
    by_cases h : le a b
    · simp only [insertSorted, if_pos h]
      refine List.pairwise_cons.mpr ⟨fun x hx => ?_, hl⟩
      rcases List.mem_cons.mp hx with rfl | hx
      · exact h
      · exact htrans a b x h (hb x hx)
    · simp only [insertSorted, if_neg h]
      refine List.pairwise_cons.mpr ⟨fun x hx => ?_, ih hl'⟩
      rcases (mem_insertSorted le a x l).mp hx with rfl | hx
      · rcases Bool.or_eq_true_iff.mp (htot x b) with h4 | h4
        · exact absurd h4 h
        · exact h4
      · exact hb x hx

theorem pairwise_sortBy (le : α → α → Bool)
    (htot : ∀ a b, le a b || le b a)
    (htrans : ∀ a b c, le a b = true → le b c = true → le a c = true)
    (l : List α) :
    (sortBy le l).Pairwise (fun x y => le x y = true) := by
  induction l with
  | nil => simp [sortBy]
  | cons a l ih => exact pairwise_insertSorted le htot htrans a (sortBy le l) ih

end MoreLemmas

section ExceptLemmas

variable {α β : Type}

theorem exceptMapM_ok_forall (f : α → Except String β) (l : List α)
    (res : List β) (h : exceptMapM f l = .ok res) :
    ∀ x ∈ l, ∃ y ∈ res, f x = .ok y := by
  induction l generalizing res with
  | nil => simp
  | cons a l ih =>
    intro x hx
    rcases hfa : f a with e | y
    · simp [exceptMapM, hfa] at h
    · rcases hrec : exceptMapM f l with e | ys
      · simp [exceptMapM, hfa, hrec] at h
      · simp only [exceptMapM, hfa, hrec, Except.ok.injEq] at h
        subst h
        rcases List.mem_cons.mp hx with rfl | hx
        · exact ⟨y, List.mem_cons_self y ys, hfa⟩
        · obtain ⟨z, hz, hfz⟩ := ih ys hrec x hx
          exact ⟨z, List.mem_cons_of_mem y hz, hfz⟩

theorem exceptMapM_ok_mem (f : α → Except String β) (l : List α)
    (res : List β) (h : exceptMapM f l = .ok res) :
    ∀ y ∈ res, ∃ x ∈ l, f x = .ok y := by
  induction l generalizing res with
  | nil =>
    simp only [exceptMapM, Except.ok.injEq] at h
    subst h
    simp
  | cons a l ih =>
    intro y hy
    rcases hfa : f a with e | z
    · simp [exceptMapM, hfa] at h
    · rcases hrec : exceptMapM f l with e | ys
      · simp [exceptMapM, hfa, hrec] at h
      · simp only [exceptMapM, hfa, hrec, Except.ok.injEq] at h
        subst h
        rcases List.mem_cons.mp hy with rfl | hy
        · exact ⟨a, List.mem_cons_self a l, hfa⟩
        · obtain ⟨x, hx, hfx⟩ := ih ys hrec y hy
          exact ⟨x, List.mem_cons_of_mem a hx, hfx⟩

theorem exceptMapM_ok_length (f : α → Except String β) (l : List α)
    (res : List β) (h : exceptMapM f l = .ok res) : res.length = l.length := by
  induction l generalizing res with
  | nil =>
    simp only [exceptMapM, Except.ok.injEq] at h
    subst h
    rfl
  | cons a l ih =>
    rcases hfa : f a with e | z
    · simp [exceptMapM, hfa] at h
    · rcases hrec : exceptMapM f l with e | ys
      · simp [exceptMapM, hfa, hrec] at h
      · simp only [exceptMapM, hfa, hrec, Except.ok.injEq] at h
        subst h
        simp [ih ys hrec]

end ExceptLemmas

/-- Claim C2: for every file that exists and parses, the Dataset stored
by `load_data` is the cleaned frame, in which no missing-value marker
remains, every formerly-missing cell equals numeric zero, and no two
rows are identical. -/
theorem clean_invariant (a : FashionAnalyzer) (fs : FileSystem) (df : DataFrame)
    (h : fs a.filename = ReadResult.parsed df) :
    (a.load_data fs).1.df = some (cleanFrame df) ∧
    (∀ r ∈ (cleanFrame df).rows, ∀ c ∈ r, c ≠ Cell.na) ∧
    (∀ r ∈ (cleanFrame df).rows, ∃ r0 ∈ df.rows, r = fillnaRow r0 ∧
      ∀ i : Nat, r0[i]? = some Cell.na → r[i]? = some (Cell.num 0)) ∧
    (cleanFrame df).rows.Nodup := by
  refine ⟨?_, ?_, ?_, ?_⟩
  · simp [FashionAnalyzer.load_data, h]
  · intro r hr c hc
    obtain ⟨r0, _, rfl⟩ := cleanFrame_rows_filled df r hr
    exact mem_fillnaRow_ne_na r0 c hc
  · intro r hr
    obtain ⟨r0, h0, hr0⟩ := cleanFrame_rows_filled df r hr
    exact ⟨r0, h0, hr0, fun i hi => hr0 ▸ fillnaRow_getElem_na r0 i hi⟩
  · rw [cleanFrame_rows]
    exact nodup_drop_duplicates _

/-- Witness for C2 at a concrete frame with a missing cell and a
duplicate row. -/
theorem clean_invariant_witness :
    ((FashionAnalyzer.init "data.csv").load_data
        (fun _ => ReadResult.parsed
          ⟨["A"], [[Cell.na], [Cell.num 0], [Cell.str "x"]]⟩)).1.df =
      some (cleanFrame ⟨["A"], [[Cell.na], [Cell.num 0], [Cell.str "x"]]⟩) ∧
    (cleanFrame ⟨["A"], [[Cell.na], [Cell.num 0], [Cell.str "x"]]⟩).rows.Nodup :=
  ⟨(clean_invariant (FashionAnalyzer.init "data.csv")
      (fun _ => ReadResult.parsed ⟨["A"], [[Cell.na], [Cell.num 0], [Cell.str "x"]]⟩)
      ⟨["A"], [[Cell.na], [Cell.num 0], [Cell.str "x"]]⟩ rfl).1,
   (clean_invariant (FashionAnalyzer.init "data.csv")
      (fun _ => ReadResult.parsed ⟨["A"], [[Cell.na], [Cell.num 0], [Cell.str "x"]]⟩)
      ⟨["A"], [[Cell.na], [Cell.num 0], [Cell.str "x"]]⟩ rfl).2.2.2⟩

/-- Claim C3: the Clean step (zero-fill then first-occurrence dedup) is
idempotent: applied to its own output it returns the same table. -/
theorem clean_idempotent (df : DataFrame) :
    cleanFrame (cleanFrame df) = cleanFrame df :=
  cleanFrame_idem df

/-- Claim C4: `drop_duplicates` keeps exactly the first occurrence of
each distinct row with its values unchanged: it equals the spec's
first-occurrence dedup, is a sublist of the input (original relative
order, original values), and keeps exactly the distinct input rows. -/
theorem dedup_first_occurrence (xs : List Row) :
    drop_duplicates xs = firstOccurrenceDedup xs ∧
    (drop_duplicates xs).Sublist xs ∧
    (drop_duplicates xs).Nodup ∧
    (∀ r : Row, r ∈ drop_duplicates xs ↔ r ∈ xs) :=
  ⟨drop_duplicates_eq_firstOccurrenceDedup xs, drop_duplicates_sublist xs,
    nodup_drop_duplicates xs, fun r => mem_drop_duplicates xs r⟩

/-- Claim C5: `load_data`'s error contract — absent file: "not found"
logged and `False` returned; other read error: its message logged and
`False` returned; successful parse: `True` returned.  Exactly one read
attempt is made (no retries). -/
theorem load_data_contract (a : FashionAnalyzer) (fs : FileSystem) :
    (fs a.filename = ReadResult.notFound →
      (a.load_data fs).2.1 = false ∧
      Event.errorFileNotFound a.filename ∈ (a.load_data fs).2.2) ∧
    (∀ e, fs a.filename = ReadResult.readFailed e →
      (a.load_data fs).2.1 = false ∧
      Event.errorLoadFailed e ∈ (a.load_data fs).2.2) ∧
    (∀ df, fs a.filename = ReadResult.parsed df → (a.load_data fs).2.1 = true) ∧
    (a.load_data fs).2.2.countP Event.isReadAttempt = 1 := by
  refine ⟨?_, ?_, ?_, ?_⟩
  · intro h
    simp [FashionAnalyzer.load_data, h]
  · intro e h
    simp [FashionAnalyzer.load_data, h]
  · intro df h
    simp [FashionAnalyzer.load_data, h]
  · rcases h : fs a.filename with df | _ | e <;>
      simp [FashionAnalyzer.load_data, h, Event.isReadAttempt]

/-- Witness for C5: the three contract cases at concrete file systems. -/
theorem load_data_contract_witness :
    (((FashionAnalyzer.init "gone.csv").load_data (fun _ => ReadResult.notFound)).2.1 = false ∧
      Event.errorFileNotFound "gone.csv" ∈
        ((FashionAnalyzer.init "gone.csv").load_data (fun _ => ReadResult.notFound)).2.2) ∧
    (((FashionAnalyzer.init "bad.csv").load_data
        (fun _ => ReadResult.readFailed "ParserError")).2.1 = false) ∧
    (((FashionAnalyzer.init "ok.csv").load_data
        (fun _ => ReadResult.parsed ⟨["A"], [[Cell.num 1]]⟩)).2.1 = true) :=
  ⟨(load_data_contract (FashionAnalyzer.init "gone.csv") (fun _ => ReadResult.notFound)).1 rfl,
   ((load_data_contract (FashionAnalyzer.init "bad.csv")
      (fun _ => ReadResult.readFailed "ParserError")).2.1 "ParserError" rfl).1,
   (load_data_contract (FashionAnalyzer.init "ok.csv")
      (fun _ => ReadResult.parsed ⟨["A"], [[Cell.num 1]]⟩)).2.2.1
      ⟨["A"], [[Cell.num 1]]⟩ rfl⟩

/-- Claim C9 (implicit): zero-fill happens before dedup, so a raw row
that differs from an earlier row only in which cells are missing is
dropped by Clean even though it was not an exact duplicate in the raw
file; the filled first occurrence survives in front. -/
theorem fill_before_dedup (cols : List String) (r1 r2 : Row) (rest : List Row)
    (_hne : r1 ≠ r2) (hfill : fillnaRow r1 = fillnaRow r2) :
    (cleanFrame ⟨cols, r1 :: r2 :: rest⟩).rows =
      (cleanFrame ⟨cols, r1 :: rest⟩).rows ∧
    (cleanFrame ⟨cols, r1 :: r2 :: rest⟩).rows.head? = some (fillnaRow r1) := by
  constructor
  · show drop_duplicates (List.map fillnaRow (r1 :: r2 :: rest)) =
      drop_duplicates (List.map fillnaRow (r1 :: rest))
    simp only [List.map_cons, ← hfill]
    simp [drop_duplicates, dedupAux]
  · show (drop_duplicates (List.map fillnaRow (r1 :: r2 :: rest))).head? =
      some (fillnaRow r1)
    simp only [List.map_cons, ← hfill]
    simp [drop_duplicates, dedupAux]

/-- Witness for C9: two raw rows that differ only in a missing cell
(`na` vs already-zero); the second is dropped by Clean. -/
theorem fill_before_dedup_witness :
    [Cell.na, Cell.str "x"] ≠ [Cell.num 0, Cell.str "x"] ∧
    (cleanFrame ⟨["A", "B"],
        [[Cell.na, Cell.str "x"], [Cell.num 0, Cell.str "x"]]⟩).rows =
      (cleanFrame ⟨["A", "B"], [[Cell.na, Cell.str "x"]]⟩).rows :=
  ⟨by decide,
   (fill_before_dedup ["A", "B"] [Cell.na, Cell.str "x"] [Cell.num 0, Cell.str "x"] []
      (by decide) rfl).1⟩

/-- Claim C10 (implicit): a failed read leaves the analyzer state
untouched; in particular, starting from `__init__` (where `df = None`),
a load failure leaves `df = None` — no partial table is left behind. -/
theorem load_failure_leaves_df_none (a : FashionAnalyzer) (fs : FileSystem)
    (h : fs a.filename = ReadResult.notFound ∨
      ∃ e, fs a.filename = ReadResult.readFailed e) :
    (a.load_data fs).1 = a ∧
    ((FashionAnalyzer.init a.filename).load_data fs).1.df = none := by
  have hinit : (FashionAnalyzer.init a.filename).filename = a.filename := rfl
  rcases h with h | ⟨e, h⟩
  · constructor
    · simp [FashionAnalyzer.load_data, h]
    · simp [FashionAnalyzer.load_data, FashionAnalyzer.init, hinit, h]
  · constructor
    · simp [FashionAnalyzer.load_data, h]
    · simp [FashionAnalyzer.load_data, FashionAnalyzer.init, hinit, h]

/-- Witness for C10 at a concrete absent file. -/
theorem load_failure_leaves_df_none_witness :
    ((FashionAnalyzer.init "gone.csv").load_data (fun _ => ReadResult.notFound)).1.df = none :=
  (load_failure_leaves_df_none (FashionAnalyzer.init "gone.csv")
    (fun _ => ReadResult.notFound) (Or.inl rfl)).2

theorem column_eq_none (df : DataFrame) (name : String) (h : name ∉ df.cols) :
    column df name = none := by
  have hf : df.cols.findIdx? (fun c => c == name) = none := by
    rw [List.findIdx?_eq_none_iff]
    intro x hx
    simp only [beq_eq_false_iff_ne, ne_eq]
    exact fun hxe => h (hxe ▸ hx)
  simp [column, hf]

/-- Claim C1: `run` short-circuits on load failure — the aborted-run
error is logged, some load error is logged, and neither the Reporter
output nor the chart window ever appears; on load success the trace is
exactly load events, then the Reporter's print, then the chart events
(ending in the shown window), then the completion log, in that order
(whenever the Reporter returns normally; a raising Reporter is C7). -/
theorem run_orchestration (a : FashionAnalyzer) (fs : FileSystem) :
    ((fs a.filename = ReadResult.notFound ∨
      ∃ e, fs a.filename = ReadResult.readFailed e) →
      Event.errorAnalysisAborted ∈ (a.run fs).2 ∧
      (Event.errorFileNotFound a.filename ∈ (a.run fs).2 ∨
        ∃ e, Event.errorLoadFailed e ∈ (a.run fs).2) ∧
      (∀ items, Event.statsPrinted items ∉ (a.run fs).2) ∧
      Event.chartsShown ∉ (a.run fs).2) ∧
    (∀ df items, fs a.filename = ReadResult.parsed df →
      print_text_stats (some (cleanFrame df)) = Except.ok items →
      (a.run fs).2 =
        [Event.readAttempt a.filename, Event.infoLoadedCleaned,
          Event.statsPrinted items] ++
          (plot_all_charts (some (cleanFrame df))).2 ++
          [Event.infoAnalysisComplete]) := by
  constructor
  · rintro (h | ⟨e, h⟩)
    · refine ⟨?_, Or.inl ?_, ?_, ?_⟩ <;>
        simp [FashionAnalyzer.run, FashionAnalyzer.load_data, h]
    · refine ⟨?_, Or.inr ⟨e, ?_⟩, ?_, ?_⟩ <;>
        simp [FashionAnalyzer.run, FashionAnalyzer.load_data, h]
  · intro df items h hstats
    simp [FashionAnalyzer.run, FashionAnalyzer.load_data, h, hstats]

/-- Witness for C1: a missing file aborts; a one-column frame runs the
full Reporter-then-Visualizer-then-completion sequence. -/
theorem run_orchestration_witness :
    Event.errorAnalysisAborted ∈
      ((FashionAnalyzer.init "missing.csv").run (fun _ => ReadResult.notFound)).2 ∧
    ((FashionAnalyzer.init "ok.csv").run
        (fun _ => ReadResult.parsed ⟨["X"], [[Cell.num 1]]⟩)).2 =
      [Event.readAttempt "ok.csv", Event.infoLoadedCleaned,
        Event.statsPrinted [ReportItem.describeBlock]] ++
        (plot_all_charts (some (cleanFrame ⟨["X"], [[Cell.num 1]]⟩))).2 ++
        [Event.infoAnalysisComplete] :=
  ⟨((run_orchestration (FashionAnalyzer.init "missing.csv")
      (fun _ => ReadResult.notFound)).1 (Or.inl rfl)).1,
   (run_orchestration (FashionAnalyzer.init "ok.csv")
      (fun _ => ReadResult.parsed ⟨["X"], [[Cell.num 1]]⟩)).2
      ⟨["X"], [[Cell.num 1]]⟩ [ReportItem.describeBlock] rfl (by decide)⟩

/-- Counterexample for C7: a frame with a `Popularity_Score` column but
no `Category` column loads fine, `print_text_stats` raises `KeyError`,
and the run trace ends at the uncaught exception — the chart window
(`Event.chartsShown`) never appears, contradicting "execution still
continues to chart generation". -/
theorem reporter_error_counterexample :
    ((FashionAnalyzer.init "data.csv").run
        (fun _ => ReadResult.parsed ⟨["Popularity_Score"], [[Cell.num 80]]⟩)).2 =
      [Event.readAttempt "data.csv", Event.infoLoadedCleaned,
        Event.uncaughtException "KeyError: Category"] ∧
    Event.chartsShown ∉
      ((FashionAnalyzer.init "data.csv").run
        (fun _ => ReadResult.parsed ⟨["Popularity_Score"], [[Cell.num 80]]⟩)).2 := by
  constructor
  · decide
  · decide

/-- Claim C7 (amended): an error raised during the Reporter is fatal to
the whole run, not only to the Reporter — the exception escapes `run`
uncaught, `plot_all_charts` never executes and no completion log is
emitted. -/
theorem reporter_error_aborts_run (a : FashionAnalyzer) (fs : FileSystem)
    (df : DataFrame) (e : String)
    (hread : fs a.filename = ReadResult.parsed df)
    (herr : print_text_stats (some (cleanFrame df)) = Except.error e) :
    (a.run fs).2 =
      [Event.readAttempt a.filename, Event.infoLoadedCleaned,
        Event.uncaughtException e] ∧
    Event.chartsShown ∉ (a.run fs).2 ∧
    Event.infoAnalysisComplete ∉ (a.run fs).2 := by
  have htrace : (a.run fs).2 =
      [Event.readAttempt a.filename, Event.infoLoadedCleaned,
        Event.uncaughtException e] := by
    simp [FashionAnalyzer.run, FashionAnalyzer.load_data, hread, herr]
  refine ⟨htrace, ?_, ?_⟩ <;> simp [htrace]

/-- Witness for the amended C7 at the concrete no-`Category` frame. -/
theorem reporter_error_aborts_run_witness :
    ((FashionAnalyzer.init "trends.csv").run
        (fun _ => ReadResult.parsed ⟨["Popularity_Score"], [[Cell.num 5]]⟩)).2 =
      [Event.readAttempt "trends.csv", Event.infoLoadedCleaned,
        Event.uncaughtException "KeyError: Category"] :=
  (reporter_error_aborts_run (FashionAnalyzer.init "trends.csv")
    (fun _ => ReadResult.parsed ⟨["Popularity_Score"], [[Cell.num 5]]⟩)
    ⟨["Popularity_Score"], [[Cell.num 5]]⟩ "KeyError: Category" rfl (by decide)).1

/-- Claim C6: if `Popularity_Score` is present the Reporter prints,
after the describe block, a ranking that pairs each distinct `Category`
value with the median of the `Popularity_Score` cells of that
category's rows, sorted descending by median; if `Popularity_Score` is
absent the report is just the describe block — skipped silently,
without error. -/
theorem popularity_report (df : DataFrame) :
    ("Popularity_Score" ∉ df.cols →
      print_text_stats (some df) = Except.ok [ReportItem.describeBlock]) ∧
    (∀ rk, "Popularity_Score" ∈ df.cols →
      popularity_by_category df = Except.ok rk →
      print_text_stats (some df) =
        Except.ok [ReportItem.describeBlock, ReportItem.popularityRanking rk] ∧
      rk.Pairwise (fun p q => q.2 ≤ p.2) ∧
      (∀ p ∈ rk, ∃ keys vals scores,
        column df "Category" = some keys ∧
        column df "Popularity_Score" = some vals ∧
        exceptMapM cellToRat (groupCells keys vals p.1) = Except.ok scores ∧
        p.2 = listMedian scores) ∧
      (∀ keys, column df "Category" = some keys →
        ∀ k ∈ keys, ∃ v, (k, v) ∈ rk)) := by
  constructor
  · intro h
    simp [print_text_stats, h]
  · intro rk hp hrk
    have hprint : print_text_stats (some df) =
        Except.ok [ReportItem.describeBlock, ReportItem.popularityRanking rk] := by
      simp [print_text_stats, hp, hrk]
    rcases hga : groupAgg df "Category" "Popularity_Score" listMedian with e | r
    · rw [popularity_by_category, hga] at hrk
      exact absurd hrk (by simp)
    · rw [popularity_by_category, hga] at hrk
      have hrk' : sortBy (fun a b => decide (b.2 ≤ a.2)) r = rk := by
        simpa using hrk
      rcases hkeys : column df "Category" with _ | keys
      · simp [groupAgg, hkeys] at hga
      rcases hvals : column df "Popularity_Score" with _ | vals
      · simp [groupAgg, hkeys, hvals] at hga
      simp only [groupAgg, hkeys, hvals] at hga
      refine ⟨hprint, ?_, ?_, ?_⟩
      · rw [← hrk']
        have htot : ∀ a b : Cell × Rat,
            (decide (b.2 ≤ a.2) || decide (a.2 ≤ b.2)) = true := by
          intro a b
          rcases le_total b.2 a.2 with h | h <;> simp [h]
        have htrans : ∀ a b c : Cell × Rat,
            decide (b.2 ≤ a.2) = true → decide (c.2 ≤ b.2) = true →
            decide (c.2 ≤ a.2) = true := by
          intro a b c hab hbc
          simp only [decide_eq_true_eq] at hab hbc ⊢
          exact hbc.trans hab
        have h := pairwise_sortBy (fun a b : Cell × Rat => decide (b.2 ≤ a.2))
          htot htrans r
        exact h.imp (fun hle => of_decide_eq_true hle)
      · intro p hpmem
        have hpr : p ∈ r := by
          rw [← hrk'] at hpmem
          exact (mem_sortBy _ r p).mp hpmem
        obtain ⟨k, _, hfk⟩ := exceptMapM_ok_mem _ _ _ hga p hpr
        rcases hin : exceptMapM cellToRat (groupCells keys vals k) with e' | vs
        · simp [hin] at hfk
        · simp only [hin] at hfk
          have hpk : (k, listMedian vs) = p := by
            simpa using hfk
          refine ⟨keys, vals, vs, rfl, rfl, ?_, ?_⟩
          · rw [← hpk]
            exact hin
          · rw [← hpk]
      · intro keys' hkeys' k hk
        have hkk : keys = keys' := by
          simpa using hkeys'
        subst hkk
        have hkd : k ∈ drop_duplicates keys := (mem_drop_duplicates keys k).mpr hk
        obtain ⟨y, hy, hfy⟩ := exceptMapM_ok_forall _ _ _ hga k hkd
        rcases hin : exceptMapM cellToRat (groupCells keys vals k) with e' | vs
        · simp [hin] at hfy
        · simp only [hin] at hfy
          have hky : (k, listMedian vs) = y := by
            simpa using hfy
          refine ⟨listMedian vs, ?_⟩
          rw [← hrk', mem_sortBy]
          exact hky ▸ hy

/-- Witness for C6: a two-column frame with one `Coats` row (and a
frame without the popularity column for the skip branch). -/
theorem popularity_report_witness :
    print_text_stats (some ⟨["Category", "Popularity_Score"],
        [[Cell.str "Coats", Cell.num 80]]⟩) =
      Except.ok [ReportItem.describeBlock,
        ReportItem.popularityRanking [(Cell.str "Coats", 80)]] ∧
    print_text_stats (some ⟨["Color"], [[Cell.str "Black"]]⟩) =
      Except.ok [ReportItem.describeBlock] :=
  ⟨((popularity_report ⟨["Category", "Popularity_Score"],
      [[Cell.str "Coats", Cell.num 80]]⟩).2 [(Cell.str "Coats", 80)]
      (by decide) (by decide)).1,
   (popularity_report ⟨["Color"], [[Cell.str "Black"]]⟩).1 (by decide)⟩

theorem plot_all_charts_decomp (odf : Option DataFrame) :
    plot_all_charts odf =
      (⟨(guardPanel 1 (colorChart odf)).1, (guardPanel 2 (priceChart odf)).1,
        (guardPanel 3 (styleChart odf)).1, (guardPanel 4 (seasonChart odf)).1, true⟩,
       (guardPanel 1 (colorChart odf)).2 ++ (guardPanel 2 (priceChart odf)).2 ++
         (guardPanel 3 (styleChart odf)).2 ++ (guardPanel 4 (seasonChart odf)).2 ++
         [Event.chartsShown]) := rfl

/-- Claim C8: the four panels are guarded in isolation — each panel's
outcome is a function of its own computation alone (an exception makes
that one panel blank and logs a warning; a successful computation is
drawn regardless of the other panels), the composed figure is always
presented, and an absent `Color` column is precisely a Panel-A failure. -/
theorem charts_isolation (odf : Option DataFrame) :
    (plot_all_charts odf).1.shown = true ∧
    Event.chartsShown ∈ (plot_all_charts odf).2 ∧
    (∀ e, colorChart odf = Except.error e →
      (plot_all_charts odf).1.colorPanel = PanelResult.blank e ∧
      Event.warnChart 1 e ∈ (plot_all_charts odf).2) ∧
    (∀ d, colorChart odf = Except.ok d →
      (plot_all_charts odf).1.colorPanel = PanelResult.drawn d) ∧
    (∀ e, priceChart odf = Except.error e →
      (plot_all_charts odf).1.pricePanel = PanelResult.blank e ∧
      Event.warnChart 2 e ∈ (plot_all_charts odf).2) ∧
    (∀ d, priceChart odf = Except.ok d →
      (plot_all_charts odf).1.pricePanel = PanelResult.drawn d) ∧
    (∀ e, styleChart odf = Except.error e →
      (plot_all_charts odf).1.stylePanel = PanelResult.blank e ∧
      Event.warnChart 3 e ∈ (plot_all_charts odf).2) ∧
    (∀ d, styleChart odf = Except.ok d →
      (plot_all_charts odf).1.stylePanel = PanelResult.drawn d) ∧
    (∀ e, seasonChart odf = Except.error e →
      (plot_all_charts odf).1.seasonPanel = PanelResult.blank e ∧
      Event.warnChart 4 e ∈ (plot_all_charts odf).2) ∧
    (∀ d, seasonChart odf = Except.ok d →
      (plot_all_charts odf).1.seasonPanel = PanelResult.drawn d) ∧
    (∀ df, odf = some df → "Color" ∉ df.cols →
      colorChart odf = Except.error "KeyError: Color") := by
  refine ⟨?_, ?_, ?_, ?_, ?_, ?_, ?_, ?_, ?_, ?_, ?_⟩
  · simp [plot_all_charts_decomp]
  · simp [plot_all_charts_decomp]
  · intro e h
    constructor <;> simp [plot_all_charts_decomp, guardPanel, h]
  · intro d h
    simp [plot_all_charts_decomp, guardPanel, h]
  · intro e h
    constructor <;> simp [plot_all_charts_decomp, guardPanel, h]
  · intro d h
    simp [plot_all_charts_decomp, guardPanel, h]
  · intro e h
    constructor <;> simp [plot_all_charts_decomp, guardPanel, h]
  · intro d h
    simp [plot_all_charts_decomp, guardPanel, h]
  · intro e h
    constructor <;> simp [plot_all_charts_decomp, guardPanel, h]
  · intro d h
    simp [plot_all_charts_decomp, guardPanel, h]
  · rintro df rfl hc
    simp [colorChart, column_eq_none df "Color" hc]

/-- Witness for C8: a frame with `Style`/`Popularity_Score` but no
`Color` — Panel A goes blank with a warning while Panel C still draws
and the figure is shown. -/
theorem charts_isolation_witness :
    (plot_all_charts (some ⟨["Style", "Popularity_Score"],
        [[Cell.str "Casual", Cell.num 80]]⟩)).1.colorPanel =
      PanelResult.blank "KeyError: Color" ∧
    Event.warnChart 1 "KeyError: Color" ∈
      (plot_all_charts (some ⟨["Style", "Popularity_Score"],
        [[Cell.str "Casual", Cell.num 80]]⟩)).2 ∧
    (plot_all_charts (some ⟨["Style", "Popularity_Score"],
        [[Cell.str "Casual", Cell.num 80]]⟩)).1.stylePanel =
      PanelResult.drawn [(Cell.str "Casual", [80])] ∧
    (plot_all_charts (some ⟨["Style", "Popularity_Score"],
        [[Cell.str "Casual", Cell.num 80]]⟩)).1.shown = true :=
  ⟨((charts_isolation (some ⟨["Style", "Popularity_Score"],
      [[Cell.str "Casual", Cell.num 80]]⟩)).2.2.1 "KeyError: Color" (by decide)).1,
   ((charts_isolation (some ⟨["Style", "Popularity_Score"],
      [[Cell.str "Casual", Cell.num 80]]⟩)).2.2.1 "KeyError: Color" (by decide)).2,
   (charts_isolation (some ⟨["Style", "Popularity_Score"],
      [[Cell.str "Casual", Cell.num 80]]⟩)).2.2.2.2.2.2.2.1
      [(Cell.str "Casual", [80])] (by decide),
   (charts_isolation (some ⟨["Style", "Popularity_Score"],
      [[Cell.str "Casual", Cell.num 80]]⟩)).1⟩
